import Mathlib

/-!
Verification development for the `social_media_api` Django application
(apps `accounts` and `posts`): a shallow embedding of its data model
(users with a follow relation, posts, comments, like sets) and of the view
operations (feed, explore, like toggle, follow/unfollow, comment create and
reply, pagination), with theorems about the behaviour of those operations.

Users are identified by their primary key (`Nat`).  Many-to-many relations
(`User.followers`, `Post.likes`, `Comment.likes`) are finite sets; database
tables of posts and comments are lists in table (insertion) order, which is
the order a SQL query scans when no further ordering is imposed.
-/

namespace SocialMedia

/-- Embedding of `posts/models.py` `Post`: `author` and `likes` reference
users by primary key, `created_at` is the creation timestamp (modelled as a
`Nat` tick).  `title`/`content` are carried but play no role in the
verified queries; the `image` field is dropped. -/
structure Post where
  id : Nat
  author : Nat
  title : String
  content : String
  likes : Finset Nat
  created_at : Nat
deriving DecidableEq

/-- Embedding of `posts/models.py` `Comment`: attached to a post via
`post`, optionally a reply via the self-referential `parent_comment`
foreign key. -/
structure Comment where
  id : Nat
  post : Nat
  author : Nat
  content : String
  likes : Finset Nat
  parent_comment : Option Nat
deriving DecidableEq

/-- The relational store backing the app: the set of existing user ids,
the follow relation `accounts/models.py` `User.followers` (stored as the
set of directed edges `(follower, followee)`), and the `Post` and
`Comment` tables in insertion order. -/
structure DB where
  users : Finset Nat
  follows : Finset (Nat × Nat)
  posts : List Post
  comments : List Comment
deriving DecidableEq

/-- `u.following.all()`: the users `u` follows, i.e. the targets of the
follow edges leaving `u` (the reverse accessor of the `followers` M2M). -/
def followingOf (db : DB) (u : Nat) : Finset Nat :=
  (db.follows.filter (fun e => e.1 = u)).image Prod.snd

/-- `u.followers.all()`: the users following `u`. -/
def followersOf (db : DB) (u : Nat) : Finset Nat :=
  (db.follows.filter (fun e => e.2 = u)).image Prod.fst

theorem mem_followingOf {db : DB} {u v : Nat} :
    v ∈ followingOf db u ↔ (u, v) ∈ db.follows := by
  unfold followingOf
  simp only [Finset.mem_image, Finset.mem_filter, Prod.exists]
  constructor
  · rintro ⟨a, b, ⟨hm, ha⟩, hb⟩
    subst ha; subst hb; exact hm
  · intro hm
    exact ⟨u, v, ⟨hm, rfl⟩, rfl⟩

/-- The ordering key of `.order_by('-created_at')`: `p` comes no later
than `q` when `p`'s creation timestamp is no smaller. -/
def createdDesc (p q : Post) : Prop := q.created_at ≤ p.created_at

instance : DecidableRel createdDesc := fun p q => Nat.decLe q.created_at p.created_at

instance : IsTotal Post createdDesc := ⟨fun p q => Nat.le_total q.created_at p.created_at⟩

instance : IsTrans Post createdDesc := ⟨fun _ _ _ h1 h2 => Nat.le_trans h2 h1⟩

/-- `.order_by('-created_at')` over a table scan: a stable sort by
creation timestamp descending.  The SQL `ORDER BY` specifies only this
key, so rows with equal timestamps keep the table's scan order. -/
def orderByCreatedDesc (ps : List Post) : List Post :=
  List.insertionSort createdDesc ps

/-- `FeedViewSet.list` query (before pagination), `posts/views.py` lines
260-267: posts whose author is in `request.user.following.all()` or is
`request.user` itself, ordered by `-created_at`. -/
def feedQuery (db : DB) (u : Nat) : List Post :=
  orderByCreatedDesc
    (db.posts.filter (fun p => decide (p.author ∈ followingOf db u) || decide (p.author = u)))

/-- `ExploreViewSet.list` query (before pagination), `posts/views.py`
lines 306-313: `exclude` of exactly the feed's condition, ordered by
`-created_at`. -/
def exploreQuery (db : DB) (u : Nat) : List Post :=
  orderByCreatedDesc
    (db.posts.filter (fun p => !(decide (p.author ∈ followingOf db u) || decide (p.author = u))))

theorem mem_feedQuery {db : DB} {u : Nat} {p : Post} :
    p ∈ feedQuery db u ↔ p ∈ db.posts ∧ (p.author ∈ followingOf db u ∨ p.author = u) := by
  unfold feedQuery orderByCreatedDesc
  rw [(List.perm_insertionSort createdDesc _).mem_iff, List.mem_filter]
  simp [decide_eq_true_eq]

theorem mem_exploreQuery {db : DB} {u : Nat} {p : Post} :
    p ∈ exploreQuery db u ↔ p ∈ db.posts ∧ ¬(p.author ∈ followingOf db u ∨ p.author = u) := by
  unfold exploreQuery orderByCreatedDesc
  rw [(List.perm_insertionSort createdDesc _).mem_iff, List.mem_filter]
  simp [decide_eq_true_eq]

/-- C1: Feed membership characterization.  A post is in the unpaginated
feed query result of user `u` exactly when its author is `u` or is
followed by `u`; hence the feed contains every post `u` authored and no
post of an unfollowed other author. -/
theorem feed_membership (db : DB) (u : Nat) (p : Post) :
    p ∈ feedQuery db u ↔ p ∈ db.posts ∧ (p.author = u ∨ (u, p.author) ∈ db.follows) := by
  rw [mem_feedQuery, mem_followingOf]
  tauto

/-- Two posts by the same author with equal creation timestamps, the
smaller id first in table order. -/
def exPostA : Post := ⟨1, 7, "first title", "first body text of post", ∅, 5⟩

def exPostB : Post := ⟨2, 7, "second title", "second body text of post", ∅, 5⟩

def exDB2 : DB := ⟨{7}, ∅, [exPostA, exPostB], []⟩

/-- C2 counterexample: with two equal-timestamp posts the feed keeps the
table's scan order, so the post with the smaller identifier comes first —
the claimed identifier-descending tie-break does not happen. -/
theorem feed_no_id_tiebreak : exPostA.created_at = exPostB.created_at ∧
    exPostA.id < exPostB.id ∧ feedQuery exDB2 7 = [exPostA, exPostB] := by
  refine ⟨rfl, by decide, ?_⟩
  rfl

/-- C2 amended: the feed query sorts by creation timestamp descending and
returns exactly the posts selected by the follow-or-own filter; the code
applies no identifier tie-break, so the relative order of equal-timestamp
posts is the order the database returns them in (table order in this
model), not identifier-descending. -/
theorem feed_sorted_created_desc (db : DB) (u : Nat) :
    List.Sorted createdDesc (feedQuery db u) ∧
    List.Perm (feedQuery db u)
      (db.posts.filter
        (fun p => decide (p.author ∈ followingOf db u) || decide (p.author = u))) :=
  ⟨List.sorted_insertionSort createdDesc _, List.perm_insertionSort createdDesc _⟩

/-- C9: every post of the table is in exactly one of feed and explore, and
explore selects precisely the posts whose author is neither `u` nor
followed by `u`. -/
theorem feed_explore_partition (db : DB) (u : Nat) (p : Post) (hp : p ∈ db.posts) :
    (p ∈ feedQuery db u ∨ p ∈ exploreQuery db u) ∧
    ¬(p ∈ feedQuery db u ∧ p ∈ exploreQuery db u) ∧
    (p ∈ exploreQuery db u ↔ ¬(p.author = u ∨ (u, p.author) ∈ db.follows)) := by
  simp only [mem_feedQuery, mem_exploreQuery, mem_followingOf]
  tauto

def exPost9 : Post := ⟨1, 3, "a post title", "a post body long enough", ∅, 0⟩

def exDB9 : DB := ⟨{2, 3}, ∅, [exPost9], []⟩

/-- Witness for C9 at a concrete store: user 2 does not follow user 3, so
post 1 (authored by 3) falls in explore and not in feed. -/
theorem feed_explore_partition_witness :
    exPost9 ∈ exDB9.posts ∧
    ((exPost9 ∈ feedQuery exDB9 2 ∨ exPost9 ∈ exploreQuery exDB9 2) ∧
     ¬(exPost9 ∈ feedQuery exDB9 2 ∧ exPost9 ∈ exploreQuery exDB9 2) ∧
     (exPost9 ∈ exploreQuery exDB9 2 ↔
       ¬(exPost9.author = 2 ∨ (2, exPost9.author) ∈ exDB9.follows))) :=
  ⟨by decide, feed_explore_partition exDB9 2 exPost9 (by decide)⟩

/-- Body of the like actions' JSON response: the human-readable message,
the new liked flag, and the target's `total_likes` evaluated after the
change. -/
structure LikeResponse where
  message : String
  liked : Bool
  total_likes : Nat
deriving DecidableEq

/-- `PostViewSet.like` (`posts/views.py` lines 73-94): membership test of
the requesting user in the post's likes set, then `remove` or `add`, then
a response carrying the new liked state and `post.total_likes` (the count
re-read after the change). -/
def postLikeAction (post : Post) (user : Nat) : LikeResponse × Post :=
  if user ∈ post.likes then
    let p := { post with likes := post.likes.erase user }
    (⟨"Post unliked successfully", false, p.likes.card⟩, p)
  else
    let p := { post with likes := insert user post.likes }
    (⟨"Post liked successfully", true, p.likes.card⟩, p)

/-- `CommentViewSet.like` (`posts/views.py` lines 161-182): same toggle on
a comment's likes set. -/
def commentLikeAction (comment : Comment) (user : Nat) : LikeResponse × Comment :=
  if user ∈ comment.likes then
    let c := { comment with likes := comment.likes.erase user }
    (⟨"Comment unliked successfully", false, c.likes.card⟩, c)
  else
    let c := { comment with likes := insert user comment.likes }
    (⟨"Comment liked successfully", true, c.likes.card⟩, c)

/-- C3: toggling like twice on the same user and target (post or comment)
restores the target exactly, and the second response reports the liked
state and like count the target had before the first toggle. -/
theorem like_toggle_involution (post : Post) (comment : Comment) (user : Nat) :
    ((postLikeAction (postLikeAction post user).2 user).2 = post ∧
     (postLikeAction (postLikeAction post user).2 user).1.liked =
       decide (user ∈ post.likes) ∧
     (postLikeAction (postLikeAction post user).2 user).1.total_likes =
       post.likes.card) ∧
    ((commentLikeAction (commentLikeAction comment user).2 user).2 = comment ∧
     (commentLikeAction (commentLikeAction comment user).2 user).1.liked =
       decide (user ∈ comment.likes) ∧
     (commentLikeAction (commentLikeAction comment user).2 user).1.total_likes =
       comment.likes.card) := by
  constructor
  · by_cases h : user ∈ post.likes
    · simp [postLikeAction, h, Finset.insert_erase h]
    · simp [postLikeAction, h, Finset.erase_insert h]
  · by_cases h : user ∈ comment.likes
    · simp [commentLikeAction, h, Finset.insert_erase h]
    · simp [commentLikeAction, h, Finset.erase_insert h]

/-- Status code and body of the follow/unfollow endpoints' response
(`accounts/views.py`): on failure an `error` string, on success the
`following` flag and the counts re-read after the change. -/
structure FollowResponse where
  status : Nat
  error : Option String
  following : Option Bool
  followers_count : Option Nat
  following_count : Option Nat
deriving DecidableEq

/-- `FollowUserView.post` (`accounts/views.py` lines 106-136): 404 when the
target id does not exist, 400 when the target is the requester, 400 when
the requester already follows the target, otherwise the edge is added and
the response carries the counts read after the insert. -/
def followUserPost (db : DB) (requester userId : Nat) : FollowResponse × DB :=
  if userId ∈ db.users then
    if userId = requester then
      (⟨400, some "Cannot follow yourself", none, none, none⟩, db)
    else if userId ∈ followingOf db requester then
      (⟨400, some "You are already following this user", none, none, none⟩, db)
    else
      let db2 := { db with follows := insert (requester, userId) db.follows }
      (⟨200, none, some true, some (followersOf db2 userId).card,
        some (followingOf db2 requester).card⟩, db2)
  else
    (⟨404, some "User not found", none, none, none⟩, db)

/-- `UnfollowUserView.post` (`accounts/views.py` lines 147-177): 404 when
the target id does not exist, 400 when the target is the requester, 400
when the requester does not follow the target, otherwise the edge is
removed. -/
def unfollowUserPost (db : DB) (requester userId : Nat) : FollowResponse × DB :=
  if userId ∈ db.users then
    if userId = requester then
      (⟨400, some "Cannot unfollow yourself", none, none, none⟩, db)
    else if userId ∈ followingOf db requester then
      let db2 := { db with follows := db.follows.erase (requester, userId) }
      (⟨200, none, some false, some (followersOf db2 userId).card,
        some (followingOf db2 requester).card⟩, db2)
    else
      (⟨400, some "You are not following this user", none, none, none⟩, db)
  else
    (⟨404, some "User not found", none, none, none⟩, db)

/-- `User.follow` model method (`accounts/models.py` lines 31-36):
`self.following.add(user)` and `True` unless the target is `self`. -/
def userFollow (selfId other : Nat) (follows : Finset (Nat × Nat)) :
    Bool × Finset (Nat × Nat) :=
  if other ≠ selfId then (true, insert (selfId, other) follows) else (false, follows)

/-- `User.unfollow` model method (`accounts/models.py` lines 38-43):
`self.following.remove(user)` and `True` unless the target is `self`. -/
def userUnfollow (selfId other : Nat) (follows : Finset (Nat × Nat)) :
    Bool × Finset (Nat × Nat) :=
  if other ≠ selfId then (true, follows.erase (selfId, other)) else (false, follows)

theorem followUserPost_of_mem (db : DB) (a b : Nat) (hab : a ≠ b)
    (hb : b ∈ db.users) (h : (a, b) ∈ db.follows) :
    followUserPost db a b =
      (⟨400, some "You are already following this user", none, none, none⟩, db) := by
  unfold followUserPost
  rw [if_pos hb, if_neg (Ne.symm hab), if_pos (mem_followingOf.mpr h)]

theorem followUserPost_of_not_mem (db : DB) (a b : Nat) (hab : a ≠ b)
    (hb : b ∈ db.users) (h : (a, b) ∉ db.follows) :
    (followUserPost db a b).1.status = 200 ∧
    (followUserPost db a b).2 =
      { db with follows := insert (a, b) db.follows } := by
  have h1 : b ∉ followingOf db a := fun hc => h (mem_followingOf.mp hc)
  unfold followUserPost
  rw [if_pos hb, if_neg (Ne.symm hab), if_neg h1]
  exact ⟨rfl, rfl⟩

theorem unfollowUserPost_of_not_mem (db : DB) (a b : Nat) (hab : a ≠ b)
    (hb : b ∈ db.users) (h : (a, b) ∉ db.follows) :
    unfollowUserPost db a b =
      (⟨400, some "You are not following this user", none, none, none⟩, db) := by
  have h1 : b ∉ followingOf db a := fun hc => h (mem_followingOf.mp hc)
  unfold unfollowUserPost
  rw [if_pos hb, if_neg (Ne.symm hab), if_neg h1]

theorem unfollowUserPost_of_mem (db : DB) (a b : Nat) (hab : a ≠ b)
    (hb : b ∈ db.users) (h : (a, b) ∈ db.follows) :
    (unfollowUserPost db a b).1.status = 200 ∧
    (unfollowUserPost db a b).2 =
      { db with follows := db.follows.erase (a, b) } := by
  unfold unfollowUserPost
  rw [if_pos hb, if_neg (Ne.symm hab), if_pos (mem_followingOf.mpr h)]
  exact ⟨rfl, rfl⟩

def exDB4 : DB := ⟨{1, 2}, {(1, 2)}, [], []⟩

/-- C4 counterexample: with the edge (1, 2) already present, the follow
endpoint does not succeed as a no-op — it fails with 400 "You are already
following this user" (the graph is unchanged). -/
theorem follow_repeat_rejected :
    (followUserPost exDB4 1 2).1.status = 400 ∧
    (followUserPost exDB4 1 2).1.error = some "You are already following this user" ∧
    (followUserPost exDB4 1 2).2 = exDB4 := by decide

/-- C4 amended: when the edge (a, b) already exists, the follow endpoint
fails with 400 "You are already following this user" and leaves the store
unchanged; the model-level `User.follow` method is the idempotent no-op
(returns True with the graph unchanged). -/
theorem follow_already_present (db : DB) (a b : Nat) (hab : a ≠ b)
    (hb : b ∈ db.users) (h : (a, b) ∈ db.follows) :
    followUserPost db a b =
      (⟨400, some "You are already following this user", none, none, none⟩, db) ∧
    userFollow a b db.follows = (true, db.follows) := by
  refine ⟨followUserPost_of_mem db a b hab hb h, ?_⟩
  unfold userFollow
  rw [if_pos (Ne.symm hab), Finset.insert_eq_self.mpr h]

/-- Witness for C4 amended at the concrete store `exDB4`. -/
theorem follow_already_present_witness :
    (1 : Nat) ≠ 2 ∧ 2 ∈ exDB4.users ∧ (1, 2) ∈ exDB4.follows ∧
    (followUserPost exDB4 1 2 =
        (⟨400, some "You are already following this user", none, none, none⟩, exDB4) ∧
      userFollow 1 2 exDB4.follows = (true, exDB4.follows)) :=
  ⟨by decide, by decide, by decide,
    follow_already_present exDB4 1 2 (by decide) (by decide) (by decide)⟩

def exDB5 : DB := ⟨{3, 4}, ∅, [], []⟩

/-- C5 counterexample: with no edge (3, 4), the unfollow endpoint does not
succeed as a no-op — it fails with 400 "You are not following this user". -/
theorem unfollow_absent_rejected :
    (unfollowUserPost exDB5 3 4).1.status = 400 ∧
    (unfollowUserPost exDB5 3 4).1.error = some "You are not following this user" ∧
    (unfollowUserPost exDB5 3 4).2 = exDB5 := by decide

/-- C5 amended: when the edge (a, b) is absent, the unfollow endpoint
fails with 400 "You are not following this user" and leaves the store
unchanged (the model-level `User.unfollow` is the no-op success); when the
edge is present, the endpoint succeeds and removes exactly that edge. -/
theorem unfollow_absent_and_present (db : DB) (a b : Nat) (hab : a ≠ b)
    (hb : b ∈ db.users) :
    ((a, b) ∉ db.follows →
      unfollowUserPost db a b =
        (⟨400, some "You are not following this user", none, none, none⟩, db) ∧
      userUnfollow a b db.follows = (true, db.follows)) ∧
    ((a, b) ∈ db.follows →
      (unfollowUserPost db a b).1.status = 200 ∧
      (unfollowUserPost db a b).2 = { db with follows := db.follows.erase (a, b) }) := by
  constructor
  · intro h
    refine ⟨unfollowUserPost_of_not_mem db a b hab hb h, ?_⟩
    unfold userUnfollow
    rw [if_pos (Ne.symm hab), Finset.erase_eq_of_not_mem h]
  · intro h
    exact unfollowUserPost_of_mem db a b hab hb h

/-- Witness for C5 amended at the concrete store `exDB5`. -/
theorem unfollow_absent_and_present_witness :
    (3 : Nat) ≠ 4 ∧ 4 ∈ exDB5.users ∧
    (((3, 4) ∉ exDB5.follows →
      unfollowUserPost exDB5 3 4 =
        (⟨400, some "You are not following this user", none, none, none⟩, exDB5) ∧
      userUnfollow 3 4 exDB5.follows = (true, exDB5.follows)) ∧
    ((3, 4) ∈ exDB5.follows →
      (unfollowUserPost exDB5 3 4).1.status = 200 ∧
      (unfollowUserPost exDB5 3 4).2 =
        { exDB5 with follows := exDB5.follows.erase (3, 4) })) :=
  ⟨by decide, by decide, unfollow_absent_and_present exDB5 3 4 (by decide) (by decide)⟩

def exDB6 : DB := ⟨{5}, ∅, [], []⟩

/-- C6: a self-follow attempt always fails with 400 "Cannot follow
yourself" and leaves the store unchanged; the model-level `User.follow`
likewise refuses (returns False) without touching the graph. -/
theorem self_follow_rejected (db : DB) (a : Nat) (ha : a ∈ db.users) :
    followUserPost db a a =
      (⟨400, some "Cannot follow yourself", none, none, none⟩, db) ∧
    userFollow a a db.follows = (false, db.follows) := by
  constructor
  · unfold followUserPost
    rw [if_pos ha, if_pos rfl]
  · unfold userFollow
    rw [if_neg (fun hc => hc rfl)]

/-- Witness for C6 at the concrete store `exDB6`. -/
theorem self_follow_rejected_witness :
    5 ∈ exDB6.users ∧
    (followUserPost exDB6 5 5 =
        (⟨400, some "Cannot follow yourself", none, none, none⟩, exDB6) ∧
      userFollow 5 5 exDB6.follows = (false, exDB6.follows)) :=
  ⟨by decide, self_follow_rejected exDB6 5 (by decide)⟩

def exDB7 : DB := ⟨{1, 2}, {(1, 2)}, [], []⟩

/-- C7 counterexample: starting from a state where user 1 already follows
user 2, performing follow (rejected with 400, graph unchanged) and then
unfollow (removes the edge) does not restore the prior graph. -/
theorem follow_unfollow_not_roundtrip :
    (unfollowUserPost (followUserPost exDB7 1 2).2 1 2).2 ≠ exDB7 := by decide

/-- C7 amended: for distinct users a and b, starting from a state where a
does not already follow b, performing follow(a, b) and then unfollow(a, b)
through the endpoints restores the store exactly; likewise the model-level
`User.follow` then `User.unfollow` restore the edge set. -/
theorem follow_unfollow_roundtrip (db : DB) (a b : Nat) (hab : a ≠ b)
    (hb : b ∈ db.users) (h : (a, b) ∉ db.follows) :
    (unfollowUserPost (followUserPost db a b).2 a b).2 = db ∧
    (userUnfollow a b (userFollow a b db.follows).2).2 = db.follows := by
  constructor
  · rw [(followUserPost_of_not_mem db a b hab hb h).2]
    have hb2 : b ∈ ({ db with follows := insert (a, b) db.follows } : DB).users := hb
    have hm : (a, b) ∈ ({ db with follows := insert (a, b) db.follows } : DB).follows :=
      Finset.mem_insert_self _ _
    rw [(unfollowUserPost_of_mem _ a b hab hb2 hm).2]
    simp [Finset.erase_insert h]
  · unfold userFollow
    rw [if_pos (Ne.symm hab)]
    unfold userUnfollow
    rw [if_pos (Ne.symm hab)]
    exact Finset.erase_insert h

def exDB7b : DB := ⟨{8, 9}, ∅, [], []⟩

/-- Witness for C7 amended at the concrete store `exDB7b`. -/
theorem follow_unfollow_roundtrip_witness :
    (8 : Nat) ≠ 9 ∧ 9 ∈ exDB7b.users ∧ (8, 9) ∉ exDB7b.follows ∧
    ((unfollowUserPost (followUserPost exDB7b 8 9).2 8 9).2 = exDB7b ∧
      (userUnfollow 8 9 (userFollow 8 9 exDB7b.follows).2).2 = exDB7b.follows) :=
  ⟨by decide, by decide, by decide,
    follow_unfollow_roundtrip exDB7b 8 9 (by decide) (by decide) (by decide)⟩

/-- The spec invariant "Comment parent, if present, must belong to the
same Post as the comment itself", over the comment table. -/
def parentSamePost (db : DB) : Prop :=
  ∀ c ∈ db.comments, ∀ pc ∈ db.comments, c.parent_comment = some pc.id → pc.post = c.post

instance (db : DB) : Decidable (parentSamePost db) := by
  unfold parentSamePost
  infer_instance

/-- The next autoincrement primary key of the comment table. -/
def nextCommentId (db : DB) : Nat :=
  (db.comments.foldl (fun m c => max m c.id) 0) + 1

/-- Length of a string once stripped of leading and trailing whitespace:
Python's `value.strip()` as used by `validate_content`, over the string's
character list. -/
def stripLen (s : String) : Nat :=
  ((s.toList.dropWhile Char.isWhitespace).reverse.dropWhile Char.isWhitespace).reverse.length

/-- Generic comment create: `CommentViewSet.perform_create` (`posts/views.py`
lines 121-122) with `CommentSerializer` (`posts/serializers.py` lines 8-47).
The serializer validates that the writable `post` and (when given)
`parent_comment` ids reference existing rows, and that the content has at
least 3 characters once stripped and at most 1000 in all; it performs no
check that the referenced parent belongs to the same post.  On success the
comment is saved with `author = request.user`. -/
def commentCreate (db : DB) (requester postId : Nat) (parentId : Option Nat)
    (content : String) : Option DB :=
  if db.posts.any (fun p => p.id == postId) &&
      (match parentId with
       | none => true
       | some pid => db.comments.any (fun c => c.id == pid)) &&
      decide (3 ≤ stripLen content) && decide (content.length ≤ 1000) then
    some { db with comments :=
      db.comments ++ [⟨nextCommentId db, postId, requester, content, ∅, parentId⟩] }
  else none

/-- `CommentViewSet.reply` (`posts/views.py` lines 184-200): fetch the
parent comment (404 when absent), validate the content, and save with
`author = request.user`, `post = parent_comment.post` and
`parent_comment = parent`. -/
def replyAction (db : DB) (requester parentCommentId : Nat)
    (content : String) : Option DB :=
  match db.comments.find? (fun c => c.id == parentCommentId) with
  | none => none
  | some parent =>
    if decide (3 ≤ stripLen content) && decide (content.length ≤ 1000) then
      some { db with comments :=
        db.comments ++ [⟨nextCommentId db, parent.post, requester, content, ∅, some parent.id⟩] }
    else none

def exPostP1 : Post := ⟨1, 1, "post one title", "post one body long enough", ∅, 1⟩

def exPostP2 : Post := ⟨2, 1, "post two title", "post two body long enough", ∅, 2⟩

def exComment1 : Comment := ⟨1, 1, 1, "first comment", ∅, none⟩

def exDB8 : DB := ⟨{1, 3}, ∅, [exPostP1, exPostP2], [exComment1]⟩

/-- C8: the generic comment create accepts a request that attaches the new
comment to post 2 while naming a parent comment that belongs to post 1, so
the same-post parent invariant that held before the operation is violated
after it. -/
theorem comment_parent_invariant_violable :
    parentSamePost exDB8 ∧
    (commentCreate exDB8 3 2 (some 1) "a reply text").isSome = true ∧
    ¬ parentSamePost ((commentCreate exDB8 3 2 (some 1) "a reply text").getD exDB8) := by
  decide

/-- `PostPagination` / `CommentPagination` configuration
(`posts/pagination.py`): the default `page_size`, the client-controlled
`page_size` query parameter, and the `max_page_size` cap. -/
structure PaginationConfig where
  page_size : Nat
  max_page_size : Nat
deriving DecidableEq

/-- `PostPagination` (`posts/pagination.py` lines 4-10). -/
def PostPagination : PaginationConfig := ⟨10, 100⟩

/-- `CommentPagination` (`posts/pagination.py` lines 23-29). -/
def CommentPagination : PaginationConfig := ⟨20, 100⟩

/-- `rest_framework.pagination._positive_int` with `strict=True` and a
cutoff, as invoked by `PageNumberPagination.get_page_size` of the installed
framework: parse the raw query value as an integer, reject non-positive
values, cap at the cutoff. -/
def positiveIntStrict (raw : String) (cutoff : Nat) : Option Nat :=
  match raw.toInt? with
  | none => none
  | some n => if n ≤ 0 then none else some (min n.toNat cutoff)

/-- `PageNumberPagination.get_page_size` of the installed framework, with
the configuration of `posts/pagination.py`: the configured default when the
`page_size` query parameter is absent or invalid, otherwise the parsed
value capped at `max_page_size`. -/
def get_page_size (cfg : PaginationConfig) (param : Option String) : Nat :=
  match param with
  | none => cfg.page_size
  | some raw => (positiveIntStrict raw cfg.max_page_size).getD cfg.page_size

/-- One page of results: the paginator slices the list at
`(page - 1) * size` and takes `size` items. -/
def pageItems (l : List Post) (page size : Nat) : List Post :=
  (l.drop ((page - 1) * size)).take size

theorem get_page_size_le (cfg : PaginationConfig) (param : Option String) (n : Nat)
    (hp : cfg.page_size ≤ n) (hm : cfg.max_page_size ≤ n) :
    get_page_size cfg param ≤ n := by
  cases param with
  | none => exact hp
  | some raw =>
    simp only [get_page_size, positiveIntStrict]
    cases h : raw.toInt? with
    | none => exact hp
    | some m =>
      show (if m ≤ 0 then none else
        some (min m.toNat cfg.max_page_size)).getD cfg.page_size ≤ n
      by_cases hmn : m ≤ 0
      · rw [if_pos hmn]
        exact hp
      · rw [if_neg hmn]
        exact le_trans (min_le_right _ _) hm

/-- C10: the effective page size never exceeds 100 whatever the
`page_size` query parameter says, defaults to 10 for post listings and 20
for comment listings when the parameter is absent, and therefore no single
response page carries more than 100 items. -/
theorem page_size_cap (param : Option String) (l : List Post) (page : Nat) :
    get_page_size PostPagination param ≤ 100 ∧
    get_page_size CommentPagination param ≤ 100 ∧
    get_page_size PostPagination none = 10 ∧
    get_page_size CommentPagination none = 20 ∧
    (pageItems l page (get_page_size PostPagination param)).length ≤ 100 ∧
    (pageItems l page (get_page_size CommentPagination param)).length ≤ 100 := by
  have hlen : ∀ s : Nat, s ≤ 100 → (pageItems l page s).length ≤ 100 := by
    intro s hs
    unfold pageItems
    rw [List.length_take]
    exact le_trans (min_le_left _ _) hs
  have h1 := get_page_size_le PostPagination param 100 (by decide) (by decide)
  have h2 := get_page_size_le CommentPagination param 100 (by decide) (by decide)
  exact ⟨h1, h2, rfl, rfl, hlen _ h1, hlen _ h2⟩

end SocialMedia
